import Mathlib

/-!
Verification of `deploy_ec2_with_github.py` (repository Deploy-Ec2-Instances).

The script is a single linear provisioning pipeline: create a GitHub
repository, create or reuse an EC2 key pair, look up the default VPC,
create or reuse a security group, pick the newest matching AMI, launch a
batch of instances, and print the resulting public IPs.

The shallow embedding below models every external collaborator (GitHub
REST, the EC2 client) by passing its responses in explicitly.  Each
translated function returns a `Res α`: the ordered trace of provider
calls it issued, the lines it printed, and its Python outcome — `.ok`
for a normal return, `.error` for a raised exception.  Uncaught Python
exceptions (ValueError, botocore ClientError, the bare `raise`, and the
IndexError from subscripting an empty list) are the constructors of
`Err`; the spec's §7 taxonomy names the empty-result IndexError kind
`NotFoundError`, which is the `Err.notFound` constructor here.
-/

namespace Deploy

/-- A botocore `ClientError`; `text` models Python's `str(e)`, the string the
script searches for markers such as "InvalidGroup.Duplicate". -/
structure ClientErr where
  text : String
deriving DecidableEq

/-- The exception taxonomy of the script.  `valueError` is the explicit
`raise ValueError`; `githubApiError` the explicit `raise Exception` on a
non-201/202/422 GitHub status; `clientError` a propagated botocore error;
`notFound` the IndexError raised by `[0]` on an empty result list, the kind
the spec's §7 taxonomy calls NotFoundError. -/
inductive Err where
  | valueError (msg : String)
  | githubApiError (status : Nat) (body : String)
  | clientError (e : ClientErr)
  | notFound (msg : String)
deriving DecidableEq

/-- The message `str(e)` printed by the top-level handler. -/
def Err.msg : Err → String
  | .valueError m => m
  | .githubApiError s b => "GitHub API error: " ++ toString s ++ " - " ++ b
  | .clientError e => e.text
  | .notFound m => m

/-- One observable side-effecting call issued by the script: a provider
request, a local file write, or a chmod.  `deleteSecurityGroup` is part of
the provider vocabulary but is never issued by the script (it has no
rollback); its absence from traces is what the frame claims assert. -/
inductive Call where
  | postCreateRepo (name description : String) (isPrivate : Bool)
  | createKeyPair (keyName : String)
  | writeFile (path content : String)
  | chmod (path : String) (mode : Nat)
  | describeVpcs
  | createSecurityGroup (groupName description vpcId : String)
  | authorizeIngress (groupId : String) (ports : List Nat)
  | describeSecurityGroups (groupNames : List String)
  | deleteSecurityGroup (groupId : String)
  | describeImages (owners : List String) (nameFilter : String)
  | createInstances (imageId : String) (minCount maxCount : Nat)
      (instanceType keyName : String) (securityGroupIds : List String)
      (userData : String) (tagKey tagValue : String)
  | waitUntilRunning (instanceId : String)
  | reloadInstance (instanceId : String)
deriving DecidableEq

/-- Predicate: is this call the batch instance-creation request? -/
def Call.isCreateInstances : Call → Bool
  | .createInstances .. => true
  | _ => false

/-- Predicate: is this call an ingress-rule authorization? -/
def Call.isAuthorizeIngress : Call → Bool
  | .authorizeIngress .. => true
  | _ => false

/-- Predicate: does this call write or touch the local filesystem? -/
def Call.isFileWrite : Call → Bool
  | .writeFile .. => true
  | .chmod .. => true
  | _ => false

/-- Predicate: is this call a security-group deletion? -/
def Call.isDeleteSecurityGroup : Call → Bool
  | .deleteSecurityGroup .. => true
  | _ => false

/-- Outcome of one translated function: the provider/filesystem calls it
issued in order, the lines it printed, and its return-or-raise result. -/
structure Res (α : Type) where
  calls : List Call
  out : List String
  result : Except Err α

/-- Sequencing of two stages, as Python sequencing of statements: if the
first raises, the second never runs and contributes no calls and no
output. -/
def Res.bind {α β : Type} (r : Res α) (f : α → Res β) : Res β :=
  match r.result with
  | .error e => ⟨r.calls, r.out, .error e⟩
  | .ok a => ⟨r.calls ++ (f a).calls, r.out ++ (f a).out, (f a).result⟩

/-- The environment-sourced configuration block at the top of the script.
`githubToken` and `githubUsername` are `Option` because `os.getenv` without
a default returns `None` when unset. -/
structure Config where
  awsRegion : String
  instanceType : String
  instanceCount : Nat
  keyPairName : String
  securityGroupName : String
  githubToken : Option String
  githubUsername : Option String
  githubRepoName : String
  amiNameFilter : String

/-- Python truthiness of an optional string: `None` and `""` are falsy. -/
def truthy : Option String → Bool
  | none => false
  | some s => !(s = "")

/-- Whether the character list `pat` is an initial segment of `s`. -/
def leadsChars : List Char → List Char → Bool
  | [], _ => true
  | _ :: _, [] => false
  | p :: ps, c :: cs => p = c && leadsChars ps cs

/-- Whether `pat` occurs as a contiguous run inside `s`. -/
def subOccurs (pat : List Char) : List Char → Bool
  | [] => leadsChars pat []
  | c :: cs => leadsChars pat (c :: cs) || subOccurs pat cs

/-- Python's `pat in s` substring test, used for the duplicate-resource
markers in exception texts. -/
def strContains (s pat : String) : Bool := subOccurs pat.data s.data

/-- Response of `requests.post` to the GitHub create-repository endpoint:
the status code, the `html_url` field of the JSON body, and the raw text. -/
structure HttpResponse where
  status : Nat
  htmlUrl : String
  text : String

/-- A VPC record as returned by `describe_vpcs`. -/
structure Vpc where
  vpcId : String

/-- A security-group record as returned by `describe_security_groups`. -/
structure SecurityGroup where
  groupId : String

/-- An image record as returned by `describe_images`: its id and its
`CreationDate` string, the sort key of `get_latest_ami`. -/
structure Image where
  imageId : String
  creationDate : String

/-- An instance of the launched batch, in provider-returned order; its
`publicIpAddress` is the value read after `reload()`, `none` when the
instance has no public address (Python `None`). -/
structure InstanceData where
  instanceId : String
  publicIpAddress : Option String

/-- The `create_key_pair` response body: the private key material. -/
structure KeyPairData where
  keyMaterial : String

/-- `create_github_repo`: checks the credentials are truthy, POSTs the
create-repository request, and maps the status code — 201/202 returns the
response `html_url`, 422 returns the synthesized
`https://github.com/<user>/<repo>` without any further provider query,
anything else raises. -/
def create_github_repo (cfg : Config) (resp : HttpResponse) : Res String :=
  if !truthy cfg.githubToken || !truthy cfg.githubUsername then
    ⟨[], [], .error (.valueError "Missing GITHUB_TOKEN or GITHUB_USERNAME environment variables.")⟩
  else
    let user := cfg.githubUsername.getD ""
    let calls := [Call.postCreateRepo cfg.githubRepoName
      "Automatically created by Python script to deploy 50 AWS EC2 instances" false]
    let out0 := ["📦 Creating GitHub repository " ++ cfg.githubRepoName ++ "..."]
    if resp.status = 201 ∨ resp.status = 202 then
      ⟨calls, out0 ++ ["✅ Repository created: https://github.com/" ++ user ++ "/" ++ cfg.githubRepoName],
        .ok resp.htmlUrl⟩
    else if resp.status = 422 then
      ⟨calls, out0 ++ ["⚠️ Repository already exists — skipping creation."],
        .ok ("https://github.com/" ++ user ++ "/" ++ cfg.githubRepoName)⟩
    else
      ⟨calls, out0, .error (.githubApiError resp.status resp.text)⟩

/-- `get_default_vpc_id`: `describe_vpcs` filtered to the default, then
`[0]` — an IndexError (NotFoundError kind) on an empty list. -/
def get_default_vpc_id (vpcs : List Vpc) : Res String :=
  match vpcs with
  | [] => ⟨[.describeVpcs], [], .error (.notFound "list index out of range")⟩
  | v :: _ => ⟨[.describeVpcs], [], .ok v.vpcId⟩

/-- `create_key_pair`: requests key creation; on success writes
`<name>.pem` with the key material and chmods it to 0o400 (256); on a
ClientError whose text contains "InvalidKeyPair.Duplicate" prints a
warning and returns normally without touching the filesystem; any other
ClientError is re-raised. -/
def create_key_pair (cfg : Config) (createResp : Except ClientErr KeyPairData) : Res Unit :=
  match createResp with
  | .ok kp =>
    let key_path := cfg.keyPairName ++ ".pem"
    ⟨[.createKeyPair cfg.keyPairName, .writeFile key_path kp.keyMaterial, .chmod key_path 256],
     ["✅ Created and saved new key pair at " ++ key_path], .ok ()⟩
  | .error e =>
    if strContains e.text "InvalidKeyPair.Duplicate" then
      ⟨[.createKeyPair cfg.keyPairName], ["⚠️ Key pair already exists — reusing it."], .ok ()⟩
    else
      ⟨[.createKeyPair cfg.keyPairName], [], .error (.clientError e)⟩

/-- `create_security_group`: the `try` block creates the group and then
authorizes the two fixed ingress rules (TCP 22 and 80); a ClientError from
either call whose text contains "InvalidGroup.Duplicate" falls to the
reuse path, which describes the group by name and returns `[0]`'s id
(IndexError kind on an empty describe result); any other ClientError is
re-raised.  `createResp`, `authResp`, `describeResp` are the provider's
responses to the three possible calls. -/
def create_security_group (cfg : Config) (vpc_id : String)
    (createResp : Except ClientErr String) (authResp : Except ClientErr Unit)
    (describeResp : List SecurityGroup) : Res String :=
  let tryBody : List Call × List String × Except ClientErr String :=
    match createResp with
    | .error e =>
      ([.createSecurityGroup cfg.securityGroupName "Allow SSH and HTTP inbound" vpc_id], [], .error e)
    | .ok sg_id =>
      match authResp with
      | .error e =>
        ([.createSecurityGroup cfg.securityGroupName "Allow SSH and HTTP inbound" vpc_id,
          .authorizeIngress sg_id [22, 80]],
         ["✅ Security group created: " ++ sg_id], .error e)
      | .ok _ =>
        ([.createSecurityGroup cfg.securityGroupName "Allow SSH and HTTP inbound" vpc_id,
          .authorizeIngress sg_id [22, 80]],
         ["✅ Security group created: " ++ sg_id], .ok sg_id)
  match tryBody with
  | (calls, out, .ok sg_id) => ⟨calls, out, .ok sg_id⟩
  | (calls, out, .error e) =>
    if strContains e.text "InvalidGroup.Duplicate" then
      match describeResp with
      | [] =>
        ⟨calls ++ [.describeSecurityGroups [cfg.securityGroupName]],
         out ++ ["⚠️ Security group already exists — reusing it."],
         .error (.notFound "list index out of range")⟩
      | g :: _ =>
        ⟨calls ++ [.describeSecurityGroups [cfg.securityGroupName]],
         out ++ ["⚠️ Security group already exists — reusing it."],
         .ok g.groupId⟩
    else
      ⟨calls, out, .error (.clientError e)⟩

/-- Three-way lexicographic comparison of character lists by code point,
the comparison Python applies to the `CreationDate` strings when sorting. -/
def cmpChars : List Char → List Char → Ordering
  | [], [] => .eq
  | [], _ :: _ => .lt
  | _ :: _, [] => .gt
  | a :: as, b :: bs =>
    if a.toNat < b.toNat then .lt
    else if b.toNat < a.toNat then .gt
    else cmpChars as bs

/-- Python's `s < t` on strings: strict lexicographic order by code point. -/
def strLt (s t : String) : Bool :=
  match cmpChars s.data t.data with
  | .lt => true
  | _ => false

/-- Stable insertion of an image into a list sorted descending by
`CreationDate`: the image is placed before the first element whose key is
not strictly greater, so earlier-listed images precede later ones on
ties, matching Python's stable `sorted(..., reverse=True)`. -/
def insertDesc (x : Image) : List Image → List Image
  | [] => [x]
  | y :: ys =>
    if strLt x.creationDate y.creationDate then y :: insertDesc x ys else x :: y :: ys

/-- Stable descending sort by `CreationDate`, the behaviour of
`sorted(images, key=lambda x: x["CreationDate"], reverse=True)`. -/
def sortDesc : List Image → List Image
  | [] => []
  | x :: xs => insertDesc x (sortDesc xs)

/-- `get_latest_ami`: `describe_images` for owner "amazon" with the name
filter, sort descending by `CreationDate`, take `[0]`'s id — an
IndexError (NotFoundError kind) on an empty image list. -/
def get_latest_ami (cfg : Config) (images : List Image) : Res String :=
  match sortDesc images with
  | [] => ⟨[.describeImages ["amazon"] cfg.amiNameFilter], [], .error (.notFound "list index out of range")⟩
  | top :: _ => ⟨[.describeImages ["amazon"] cfg.amiNameFilter], [], .ok top.imageId⟩

/-- The fixed boot script passed as UserData, verbatim from the source. -/
def userDataScript : String :=
  "#!/bin/bash\n                    yum update -y\n                    yum install -y httpd\n                    systemctl enable httpd\n                    systemctl start httpd\n                    echo Hello from EC2 Python deployer! > /var/www/html/index.html\n                 "

/-- Python `str` of an optional public IP: `None` prints as "None". -/
def ipToStr : Option String → String
  | some s => s
  | none => "None"

/-- `launch_instances`: one `create_instances` call with
MinCount = MaxCount = INSTANCE_COUNT; if it raises, the error propagates;
otherwise the script waits for each returned instance to be running, in
provider order, reloads each, and returns the list of their public IPs in
that same order, `None` entries included.  `createResult` is the provider
response, each instance carrying its post-reload public address. -/
def launch_instances (cfg : Config) (ami_id sg_id : String)
    (createResult : Except ClientErr (List InstanceData)) : Res (List (Option String)) :=
  let createCall := Call.createInstances ami_id cfg.instanceCount cfg.instanceCount
    cfg.instanceType cfg.keyPairName [sg_id] userDataScript "Name" "PythonDeployedEC2"
  let out0 := ["🚀 Launching " ++ toString cfg.instanceCount ++ " EC2 instances of type " ++ cfg.instanceType ++ "..."]
  match createResult with
  | .error e => ⟨[createCall], out0, .error (.clientError e)⟩
  | .ok instances =>
    let ips := instances.map (fun i => i.publicIpAddress)
    ⟨[createCall]
       ++ instances.map (fun i => Call.waitUntilRunning i.instanceId)
       ++ instances.map (fun i => Call.reloadInstance i.instanceId),
     out0 ++ ["⏳ Waiting for instances to be running...", "✅ EC2 instances launched successfully:"]
       ++ ips.map (fun ip => "   → " ++ ipToStr ip),
     .ok ips⟩

/-- All provider responses one run of the script can consume. -/
structure World where
  github : HttpResponse
  keyPair : Except ClientErr KeyPairData
  vpcs : List Vpc
  sgCreate : Except ClientErr String
  sgAuthorize : Except ClientErr Unit
  sgDescribe : List SecurityGroup
  images : List Image
  instances : Except ClientErr (List InstanceData)

/-- `main`: the fixed pipeline — repository, key pair, default VPC,
security group, AMI, fleet — each stage running only if every earlier
stage returned normally, followed by the summary and cleanup prints. -/
def main (cfg : Config) (w : World) : Res Unit :=
  Res.bind ⟨[], ["🌍 Starting deployment..."], .ok ()⟩ fun _ =>
  Res.bind (create_github_repo cfg w.github) fun repo_url =>
  Res.bind (create_key_pair cfg w.keyPair) fun _ =>
  Res.bind (get_default_vpc_id w.vpcs) fun vpc_id =>
  Res.bind (create_security_group cfg vpc_id w.sgCreate w.sgAuthorize w.sgDescribe) fun sg_id =>
  Res.bind (get_latest_ami cfg w.images) fun ami_id =>
  Res.bind (launch_instances cfg ami_id sg_id w.instances) fun ips =>
  ⟨[], ["", "🎯 Deployment Summary:", "GitHub Repo: " ++ repo_url,
        "Instance Count: " ++ toString cfg.instanceCount, "Public IPs:"]
       ++ ips.map (fun ip => "  - " ++ ipToStr ip)
       ++ ["", "🧹 To clean up later, run:",
           "  aws ec2 describe-instances --filters Name=tag:Name,Values=PythonDeployedEC2",
           "  aws ec2 terminate-instances --instance-ids <ids>"], .ok ()⟩

/-- The `__main__` guard: run `main` under a catch-all handler that prints
one error line and falls off the end of the script, so the interpreter
terminates normally — exit code 0 — whether or not `main` raised. -/
def script (cfg : Config) (w : World) : List String × Nat :=
  let r := main cfg w
  match r.result with
  | .ok _ => (r.out, 0)
  | .error e => (r.out ++ ["❌ Error: " ++ e.msg], 0)

/-- A concrete configuration with the script's documented defaults, three
instances, and truthy GitHub credentials, used by the witnesses. -/
def exCfg : Config :=
  { awsRegion := "us-east-1", instanceType := "t3.micro", instanceCount := 3,
    keyPairName := "deployer-key", securityGroupName := "allow_ssh_http",
    githubToken := some "ghp-token", githubUsername := some "octo",
    githubRepoName := "aws-ec2-50", amiNameFilter := "amzn2-ami-kernel-5.10-hvm-*-x86_64-gp2" }

/-- A 422 conflict response from the create-repository endpoint. -/
def exResp422 : HttpResponse := ⟨422, "", "Validation Failed"⟩

/-- A 201 created response from the create-repository endpoint. -/
def exResp201 : HttpResponse := ⟨201, "https://github.com/octo/aws-ec2-50", "created"⟩

/-- A duplicate-key-name ClientError text. -/
def exDupKeyErr : ClientErr := ⟨"An error occurred (InvalidKeyPair.Duplicate)"⟩

/-- A duplicate-group ClientError text. -/
def exDupGroupErr : ClientErr := ⟨"An error occurred (InvalidGroup.Duplicate)"⟩

/-- An unauthorized ClientError whose text carries no duplicate marker. -/
def exOtherErr : ClientErr := ⟨"An error occurred (UnauthorizedOperation)"⟩

/-- The three launched instances of the end-to-end scenario: two with
public IPs and one without. -/
def exInsts : List InstanceData :=
  [⟨"i-0001", some "1.2.3.4"⟩, ⟨"i-0002", some "5.6.7.8"⟩, ⟨"i-0003", none⟩]

/-- The image snapshot of the determinism scenario, with creation dates
2024-01-01, 2024-06-01, 2023-12-01 in that order. -/
def exImages : List Image :=
  [⟨"ami-a", "2024-01-01"⟩, ⟨"ami-b", "2024-06-01"⟩, ⟨"ami-c", "2023-12-01"⟩]

/-- A world in which the repository and key-pair stages succeed but the
account has no default VPC, so network resolution fails. -/
def exVpcFailWorld : World :=
  { github := exResp201, keyPair := .error exDupKeyErr, vpcs := [],
    sgCreate := .ok "sg-123", sgAuthorize := .ok (), sgDescribe := [],
    images := exImages, instances := .ok exInsts }

theorem waits_no_create (l : List InstanceData) :
    (l.map fun i => Call.waitUntilRunning i.instanceId).filter Call.isCreateInstances = [] := by
  induction l with
  | nil => rfl
  | cons a t ih => simp [List.filter_cons, Call.isCreateInstances, ih]

theorem reloads_no_create (l : List InstanceData) :
    (l.map fun i => Call.reloadInstance i.instanceId).filter Call.isCreateInstances = [] := by
  induction l with
  | nil => rfl
  | cons a t ih => simp [List.filter_cons, Call.isCreateInstances, ih]

/-- C1: for every fleet size N ≥ 1 the launcher issues exactly one
batch-creation call, with MinCount = MaxCount = N — never N per-instance
creation calls.  The trace of `launch_instances`, filtered to
batch-creation calls, is exactly the one call with both counts equal to
the configured instance count, whatever the provider then answers. -/
theorem launch_single_batch_call (cfg : Config) (ami sg : String)
    (cr : Except ClientErr (List InstanceData)) (_h : 1 ≤ cfg.instanceCount) :
    (launch_instances cfg ami sg cr).calls.filter Call.isCreateInstances
      = [Call.createInstances ami cfg.instanceCount cfg.instanceCount cfg.instanceType
          cfg.keyPairName [sg] userDataScript "Name" "PythonDeployedEC2"] := by
  cases cr with
  | error e => simp [launch_instances, List.filter_cons, Call.isCreateInstances]
  | ok insts =>
    simp [launch_instances, List.filter_cons, List.filter_append, Call.isCreateInstances,
      waits_no_create, reloads_no_create]

theorem launch_single_batch_call_witness :
    1 ≤ exCfg.instanceCount ∧
    (launch_instances exCfg "ami-0" "sg-0" (Except.ok exInsts)).calls.filter Call.isCreateInstances
      = [Call.createInstances "ami-0" exCfg.instanceCount exCfg.instanceCount exCfg.instanceType
          exCfg.keyPairName ["sg-0"] userDataScript "Name" "PythonDeployedEC2"] :=
  ⟨by decide, launch_single_batch_call exCfg "ami-0" "sg-0" (Except.ok exInsts) (by decide)⟩

/-- C2: when the batch call succeeds and every instance reaches running,
the launcher returns the public IPs in the provider-returned per-instance
wait order, one entry per instance, with a missing public IP kept as
`none`; in particular the 3-instance scenario with IPs
[1.2.3.4, 5.6.7.8, none] returns exactly those entries in that order. -/
theorem launch_returns_ips_in_order (cfg : Config) (ami sg : String) (insts : List InstanceData) :
    (launch_instances cfg ami sg (.ok insts)).result
        = .ok (insts.map fun i => i.publicIpAddress)
    ∧ (insts.map fun i => i.publicIpAddress).length = insts.length
    ∧ (launch_instances exCfg "ami-0" "sg-0" (.ok exInsts)).result
        = .ok [some "1.2.3.4", some "5.6.7.8", none] :=
  ⟨rfl, by simp, rfl⟩

/-- C3: on a 422 conflict response, `create_github_repo` returns normally
with the synthesized `https://github.com/<owner>/<name>` built from its
inputs, and its provider trace is exactly the one POST — it never queries
the provider for the real URL. -/
theorem github_conflict_synthesizes_url (cfg : Config) (resp : HttpResponse)
    (ht : truthy cfg.githubToken = true) (hu : truthy cfg.githubUsername = true)
    (hs : resp.status = 422) :
    (create_github_repo cfg resp).result
        = .ok ("https://github.com/" ++ cfg.githubUsername.getD "" ++ "/" ++ cfg.githubRepoName)
    ∧ (create_github_repo cfg resp).calls
        = [Call.postCreateRepo cfg.githubRepoName
            "Automatically created by Python script to deploy 50 AWS EC2 instances" false] := by
  constructor <;> simp [create_github_repo, ht, hu, hs]

theorem github_conflict_synthesizes_url_witness :
    truthy exCfg.githubToken = true ∧ truthy exCfg.githubUsername = true
    ∧ exResp422.status = 422
    ∧ ((create_github_repo exCfg exResp422).result
        = .ok ("https://github.com/" ++ exCfg.githubUsername.getD "" ++ "/" ++ exCfg.githubRepoName)
      ∧ (create_github_repo exCfg exResp422).calls
        = [Call.postCreateRepo exCfg.githubRepoName
            "Automatically created by Python script to deploy 50 AWS EC2 instances" false]) :=
  ⟨by decide, by decide, rfl,
    github_conflict_synthesizes_url exCfg exResp422 (by decide) (by decide) rfl⟩

/-- C4: on a ClientError whose text carries the duplicate-key-name marker,
`create_key_pair` returns normally, and its trace is exactly the one
create-key-pair request: no `.pem` file write and no chmod occur, and no
error propagates. -/
theorem key_pair_duplicate_no_write (cfg : Config) (e : ClientErr)
    (hd : strContains e.text "InvalidKeyPair.Duplicate" = true) :
    (create_key_pair cfg (.error e)).result = .ok ()
    ∧ (create_key_pair cfg (.error e)).calls = [Call.createKeyPair cfg.keyPairName]
    ∧ (create_key_pair cfg (.error e)).calls.filter Call.isFileWrite = [] := by
  refine ⟨?_, ?_, ?_⟩ <;> simp [create_key_pair, hd, List.filter_cons, Call.isFileWrite]

theorem key_pair_duplicate_no_write_witness :
    strContains exDupKeyErr.text "InvalidKeyPair.Duplicate" = true
    ∧ ((create_key_pair exCfg (.error exDupKeyErr)).result = .ok ()
      ∧ (create_key_pair exCfg (.error exDupKeyErr)).calls = [Call.createKeyPair exCfg.keyPairName]
      ∧ (create_key_pair exCfg (.error exDupKeyErr)).calls.filter Call.isFileWrite = []) :=
  ⟨by decide, key_pair_duplicate_no_write exCfg exDupKeyErr (by decide)⟩

/-- C5: on a duplicate-group ClientError from group creation,
`create_security_group` looks the existing group up by name, returns its
id, and its trace holds zero ingress-rule-authorization calls — the
existing rules are neither checked nor modified. -/
theorem sg_duplicate_reuses_without_rules (cfg : Config) (vpc : String) (e : ClientErr)
    (authResp : Except ClientErr Unit) (g : SecurityGroup) (rest : List SecurityGroup)
    (hd : strContains e.text "InvalidGroup.Duplicate" = true) :
    (create_security_group cfg vpc (.error e) authResp (g :: rest)).result = .ok g.groupId
    ∧ (create_security_group cfg vpc (.error e) authResp (g :: rest)).calls
        = [Call.createSecurityGroup cfg.securityGroupName "Allow SSH and HTTP inbound" vpc,
           Call.describeSecurityGroups [cfg.securityGroupName]]
    ∧ (create_security_group cfg vpc (.error e) authResp (g :: rest)).calls.filter
        Call.isAuthorizeIngress = [] := by
  refine ⟨?_, ?_, ?_⟩ <;>
    simp [create_security_group, hd, List.filter_cons, Call.isAuthorizeIngress]

theorem sg_duplicate_reuses_without_rules_witness :
    strContains exDupGroupErr.text "InvalidGroup.Duplicate" = true
    ∧ ((create_security_group exCfg "vpc-1" (.error exDupGroupErr) (.ok ())
          [⟨"sg-old"⟩]).result = .ok (SecurityGroup.mk "sg-old").groupId
      ∧ (create_security_group exCfg "vpc-1" (.error exDupGroupErr) (.ok ())
          [⟨"sg-old"⟩]).calls
        = [Call.createSecurityGroup exCfg.securityGroupName "Allow SSH and HTTP inbound" "vpc-1",
           Call.describeSecurityGroups [exCfg.securityGroupName]]
      ∧ (create_security_group exCfg "vpc-1" (.error exDupGroupErr) (.ok ())
          [⟨"sg-old"⟩]).calls.filter Call.isAuthorizeIngress = []) :=
  ⟨by decide,
    sg_duplicate_reuses_without_rules exCfg "vpc-1" exDupGroupErr (.ok ()) ⟨"sg-old"⟩ [] (by decide)⟩

/-- C6: an empty result set where one entry is expected fails inside the
script's error taxonomy rather than crashing: the default-VPC lookup on an
empty VPC list and the AMI lookup on an empty image list each produce the
empty-result IndexError, the kind the spec's taxonomy names NotFoundError,
which the top-level handler catches like any other failure. -/
theorem empty_results_raise_not_found (cfg : Config) :
    (get_default_vpc_id []).result = .error (.notFound "list index out of range")
    ∧ (get_latest_ami cfg []).result = .error (.notFound "list index out of range") :=
  ⟨rfl, rfl⟩

/-- C10: if group creation succeeds but the ingress authorization fails
with a ClientError carrying no duplicate-group marker, the function
re-raises that error, and its trace shows the group creation with no
compensating delete — the group from this same invocation stays behind
without the intended rules. -/
theorem sg_authorize_failure_no_rollback (cfg : Config) (vpc sgId : String) (e : ClientErr)
    (describeResp : List SecurityGroup)
    (hd : strContains e.text "InvalidGroup.Duplicate" = false) :
    (create_security_group cfg vpc (.ok sgId) (.error e) describeResp).result
        = .error (.clientError e)
    ∧ (create_security_group cfg vpc (.ok sgId) (.error e) describeResp).calls
        = [Call.createSecurityGroup cfg.securityGroupName "Allow SSH and HTTP inbound" vpc,
           Call.authorizeIngress sgId [22, 80]]
    ∧ (create_security_group cfg vpc (.ok sgId) (.error e) describeResp).calls.filter
        Call.isDeleteSecurityGroup = [] := by
  refine ⟨?_, ?_, ?_⟩ <;>
    simp [create_security_group, hd, List.filter_cons, Call.isDeleteSecurityGroup]

theorem cmpChars_self : ∀ l : List Char, cmpChars l l = .eq := by
  intro l
  induction l with
  | nil => rfl
  | cons a as ih => simp [cmpChars, Nat.lt_irrefl, ih]

theorem cmpChars_swap : ∀ a b : List Char, cmpChars b a = (cmpChars a b).swap := by
  intro a
  induction a with
  | nil => intro b; cases b <;> rfl
  | cons x as ih =>
    intro b
    cases b with
    | nil => rfl
    | cons y bs =>
      rcases Nat.lt_trichotomy x.toNat y.toNat with h | h | h
      · simp [cmpChars, h, Nat.lt_asymm h, Ordering.swap]
      · simp [cmpChars, h, Nat.lt_irrefl, ih bs]
      · simp [cmpChars, h, Nat.lt_asymm h, Ordering.swap]

theorem cmpChars_le_trans : ∀ a b c : List Char,
    cmpChars a b ≠ .gt → cmpChars b c ≠ .gt → cmpChars a c ≠ .gt := by
  intro a
  induction a with
  | nil => intro b c _ _; cases c <;> simp [cmpChars]
  | cons x as ih =>
    intro b c hab hbc
    cases b with
    | nil => exact absurd rfl hab
    | cons y bs =>
      cases c with
      | nil => exact absurd rfl hbc
      | cons z cs =>
        simp only [cmpChars] at hab hbc ⊢
        split_ifs at hab hbc ⊢ <;>
          first
            | exact absurd rfl hab
            | exact absurd rfl hbc
            | exact ih bs cs hab hbc
            | omega
            | simp

theorem swap_ne_gt {o : Ordering} : o.swap ≠ .gt ↔ o ≠ .lt := by
  cases o <;> simp [Ordering.swap]

theorem strLt_eq_true_iff {s t : String} : strLt s t = true ↔ cmpChars s.data t.data = .lt := by
  unfold strLt
  cases h : cmpChars s.data t.data <;> simp [h]

theorem strLt_eq_false_iff {s t : String} : strLt s t = false ↔ cmpChars s.data t.data ≠ .lt := by
  unfold strLt
  cases h : cmpChars s.data t.data <;> simp [h]

theorem strLt_self (s : String) : strLt s s = false := by
  rw [strLt_eq_false_iff, cmpChars_self]
  simp

theorem strLt_asymm {s t : String} (h : strLt s t = true) : strLt t s = false := by
  rw [strLt_eq_true_iff] at h
  rw [strLt_eq_false_iff, cmpChars_swap s.data t.data, h]
  simp [Ordering.swap]

theorem strLt_false_trans {x h a : String} (h1 : strLt x h = false) (h2 : strLt h a = false) :
    strLt x a = false := by
  rw [strLt_eq_false_iff] at h1 h2 ⊢
  have hhx : cmpChars h.data x.data ≠ .gt := by
    rw [cmpChars_swap x.data h.data]
    exact swap_ne_gt.mpr h1
  have hah : cmpChars a.data h.data ≠ .gt := by
    rw [cmpChars_swap h.data a.data]
    exact swap_ne_gt.mpr h2
  have hax := cmpChars_le_trans a.data h.data x.data hah hhx
  rw [cmpChars_swap x.data a.data] at hax
  exact swap_ne_gt.mp hax

theorem sortDesc_head_max : ∀ l : List Image, l ≠ [] →
    ∃ h t, sortDesc l = h :: t ∧ h ∈ l
      ∧ ∀ a ∈ l, strLt h.creationDate a.creationDate = false := by
  intro l
  induction l with
  | nil => intro hne; exact absurd rfl hne
  | cons x xs ih =>
    intro _
    by_cases hxs : xs = []
    · subst hxs
      refine ⟨x, [], rfl, by simp, ?_⟩
      intro a ha
      simp only [List.mem_singleton] at ha
      subst ha
      exact strLt_self _
    · obtain ⟨h, t, hsort, hmem, hmax⟩ := ih hxs
      cases hcmp : strLt x.creationDate h.creationDate with
      | true =>
        refine ⟨h, insertDesc x t, ?_, List.mem_cons_of_mem _ hmem, ?_⟩
        · simp [sortDesc, hsort, insertDesc, hcmp]
        · intro a ha
          rcases List.mem_cons.mp ha with rfl | ha
          · exact strLt_asymm hcmp
          · exact hmax a ha
      | false =>
        refine ⟨x, h :: t, ?_, List.mem_cons_self _ _, ?_⟩
        · simp [sortDesc, hsort, insertDesc, hcmp]
        · intro a ha
          rcases List.mem_cons.mp ha with rfl | ha
          · exact strLt_self _
          · exact strLt_false_trans hcmp (hmax a ha)

/-- C7: for every fixed non-empty image snapshot the resolver returns the
id of an image with maximal creation timestamp — an image of the snapshot
that no other image strictly exceeds in `CreationDate` — and, being a
function of the snapshot, it is deterministic; on the snapshot with dates
[2024-01-01, 2024-06-01, 2023-12-01] it returns the 2024-06-01 image. -/
theorem get_latest_ami_picks_newest (cfg : Config) (x : Image) (xs : List Image) :
    (∃ m, m ∈ x :: xs ∧ (get_latest_ami cfg (x :: xs)).result = .ok m.imageId
       ∧ ∀ y ∈ x :: xs, strLt m.creationDate y.creationDate = false)
    ∧ (get_latest_ami exCfg exImages).result = .ok "ami-b" := by
  constructor
  · obtain ⟨h, t, hsort, hmem, hmax⟩ := sortDesc_head_max (x :: xs) (by simp)
    exact ⟨h, hmem, by simp [get_latest_ami, hsort], hmax⟩
  · rfl

theorem sg_authorize_failure_no_rollback_witness :
    strContains exOtherErr.text "InvalidGroup.Duplicate" = false
    ∧ ((create_security_group exCfg "vpc-1" (.ok "sg-new") (.error exOtherErr) []).result
        = .error (.clientError exOtherErr)
      ∧ (create_security_group exCfg "vpc-1" (.ok "sg-new") (.error exOtherErr) []).calls
        = [Call.createSecurityGroup exCfg.securityGroupName "Allow SSH and HTTP inbound" "vpc-1",
           Call.authorizeIngress "sg-new" [22, 80]]
      ∧ (create_security_group exCfg "vpc-1" (.ok "sg-new") (.error exOtherErr) []).calls.filter
          Call.isDeleteSecurityGroup = []) :=
  ⟨by decide,
    sg_authorize_failure_no_rollback exCfg "vpc-1" "sg-new" exOtherErr [] (by decide)⟩

theorem Res.bind_of_ok {α β : Type} {r : Res α} {a : α} (h : r.result = .ok a)
    (f : α → Res β) :
    Res.bind r f = ⟨r.calls ++ (f a).calls, r.out ++ (f a).out, (f a).result⟩ := by
  unfold Res.bind
  rw [h]

theorem Res.bind_of_error {α β : Type} {r : Res α} {e : Err} (h : r.result = .error e)
    (f : α → Res β) :
    Res.bind r f = ⟨r.calls, r.out, .error e⟩ := by
  unfold Res.bind
  rw [h]

theorem github_calls_no_create (cfg : Config) (resp : HttpResponse) :
    (create_github_repo cfg resp).calls.filter Call.isCreateInstances = [] := by
  unfold create_github_repo
  repeat' split
  all_goals simp [List.filter_cons, Call.isCreateInstances]

theorem keypair_calls_no_create (cfg : Config) (cr : Except ClientErr KeyPairData) :
    (create_key_pair cfg cr).calls.filter Call.isCreateInstances = [] := by
  unfold create_key_pair
  repeat' split
  all_goals simp [List.filter_cons, Call.isCreateInstances]

/-- C8: a later stage never runs once an earlier stage failed: whenever
the repository and key-pair stages returned normally but the account has
no default VPC, `main` stops with the network-resolution failure and its
whole trace holds no batch instance-creation call — the fleet launch is
never reached. -/
theorem vpc_failure_halts_pipeline (cfg : Config) (w : World) (u : String)
    (hg : (create_github_repo cfg w.github).result = .ok u)
    (hk : (create_key_pair cfg w.keyPair).result = .ok ())
    (hv : w.vpcs = []) :
    (main cfg w).result = .error (.notFound "list index out of range")
    ∧ (main cfg w).calls.filter Call.isCreateInstances = [] := by
  have hmain : main cfg w
      = ⟨[] ++ ((create_github_repo cfg w.github).calls
          ++ ((create_key_pair cfg w.keyPair).calls ++ [Call.describeVpcs])),
         ["🌍 Starting deployment..."] ++ ((create_github_repo cfg w.github).out
          ++ ((create_key_pair cfg w.keyPair).out ++ [])),
         .error (.notFound "list index out of range")⟩ := by
    unfold main
    rw [Res.bind_of_ok (r := (⟨[], ["🌍 Starting deployment..."], .ok ()⟩ : Res Unit)) rfl,
      Res.bind_of_ok hg, Res.bind_of_ok hk, hv,
      Res.bind_of_error (r := get_default_vpc_id []) rfl]
    simp [get_default_vpc_id]
  rw [hmain]
  refine ⟨rfl, ?_⟩
  simp [List.filter_append, List.filter_cons, Call.isCreateInstances,
    github_calls_no_create, keypair_calls_no_create]

theorem vpc_failure_halts_pipeline_witness :
    (create_github_repo exCfg exVpcFailWorld.github).result
        = .ok "https://github.com/octo/aws-ec2-50"
    ∧ (create_key_pair exCfg exVpcFailWorld.keyPair).result = .ok ()
    ∧ exVpcFailWorld.vpcs = []
    ∧ ((main exCfg exVpcFailWorld).result = .error (.notFound "list index out of range")
       ∧ (main exCfg exVpcFailWorld).calls.filter Call.isCreateInstances = []) :=
  ⟨rfl, rfl, rfl,
    vpc_failure_halts_pipeline exCfg exVpcFailWorld "https://github.com/octo/aws-ec2-50" rfl rfl rfl⟩

/-- C9 counterexample: the claim asserts the process exits with a
non-zero exit code when an exception escapes the pipeline.  On this world
`main` raises, yet the handled script falls off the end of the file and
the interpreter terminates with exit code 0, refuting the claim. -/
theorem script_exit_code_zero_cex :
    (main exCfg exVpcFailWorld).result = .error (.notFound "list index out of range")
    ∧ ¬ (script exCfg exVpcFailWorld).2 ≠ 0 :=
  ⟨rfl, fun hne => hne rfl⟩

/-- C9 amended: the top level is the sole error boundary: for every
exception escaping the pipeline it catches it, appends exactly one error
line to standard output, and the process terminates normally with exit
code 0 — no explicit exit-code statement exists, and the implicit code is
zero, not non-zero. -/
theorem script_error_boundary (cfg : Config) (w : World) (e : Err)
    (h : (main cfg w).result = .error e) :
    script cfg w = ((main cfg w).out ++ ["❌ Error: " ++ e.msg], 0) := by
  simp [script, h]

theorem script_error_boundary_witness :
    (main exCfg exVpcFailWorld).result = .error (.notFound "list index out of range")
    ∧ script exCfg exVpcFailWorld
        = ((main exCfg exVpcFailWorld).out
            ++ ["❌ Error: " ++ (Err.notFound "list index out of range").msg], 0) :=
  ⟨rfl, script_error_boundary exCfg exVpcFailWorld (.notFound "list index out of range") rfl⟩

end Deploy
